import Mathlib

/-!
Verification of the continuous-listening voice-assistant core.

This file gives a shallow embedding of the repository's TypeScript sources:

* `src/services/ContinuousListenerService.ts` — the endpoint detector and
  mode state machine (`handleChunk`, `processWakeWord`, `processCommand`,
  `listenForWakeWord`, `listenForCommand`, the stream error handler);
* `src/services/WhisperSTTService.ts` — `recognizeStream`'s finish handler;
* `src/services/ChatGPTService.ts` — `sendMessage`.

Modelling conventions: JavaScript numbers are embedded as `ℚ` (every value
the model manipulates is an exact rational: integer PCM samples, integer
millisecond timestamps from `Date.now()`, and configuration values such as
`silenceDuration = 1.5`).  JavaScript strings are embedded as `List Char`,
with the ASCII fragments of `toLowerCase`, `trim` and `includes` modelled
explicitly.  The `whisper.recognizeStream` collaborator and the OpenAI call
are oracles passed as function arguments; promise resolution/rejection and
subprocess/file side effects are recorded as explicit observation lists.
-/

set_option maxRecDepth 400000

/-- Embedding of `Math.abs` on a JavaScript number. -/
def jsAbs (x : ℚ) : ℚ := if x < 0 then -x else x

/-- The `chunkMaxVolume` loop of `handleChunk` (and the `maxAmplitude` loop of
`recognizeStream`): the running maximum of `Math.abs(chunk.readInt16LE(i))`
over the chunk, starting from `0`.  A chunk is embedded as the list of its
decoded signed 16-bit little-endian samples. -/
def chunkMaxVolume (chunk : List ℚ) : ℚ :=
  chunk.foldl (fun m s => if m < jsAbs s then jsAbs s else m) 0

/-- ASCII fragment of `String.prototype.toLowerCase`, character-wise.  The
core's `Char.toLower` lowers exactly the basic-latin letters `A`–`Z`, which
matches the JavaScript behaviour on all transcripts the service handles. -/
def jsToLowerCase (s : List Char) : List Char := s.map Char.toLower

/-- Embedding of `String.prototype.trim`: drop whitespace from both ends. -/
def jsTrim (s : List Char) : List Char :=
  ((s.dropWhile Char.isWhitespace).reverse.dropWhile Char.isWhitespace).reverse

/-- Embedding of `String.prototype.includes`: `jsIncludes s sub` is `true` iff `sub`
occurs as a contiguous substring of `s`. -/
def jsIncludes (s sub : List Char) : Bool :=
  match s with
  | [] => sub == []
  | _ :: rest => sub.isPrefixOf s || jsIncludes rest sub

deriving instance DecidableEq for Except

/-- The two listener modes of `ContinuousListenerService` (`'wake_word'` and
`'command'`). -/
inductive ListenerMode where
  | wake_word
  | command
  deriving DecidableEq, Repr

/-- The mutable fields of the `ContinuousListenerService` class.  The
`currentResolver`/`currentRejector` pair is modelled by the single flag
`pending`: in the source the two references are always set together (in
`listenForWakeWord`/`listenForCommand`) and always cleared together
(immediately after any resolve or reject), so their joint nullness is one
bit of state; the actual continuation calls are recorded as observations. -/
structure ListenerState where
  volumeThreshold : ℚ
  silenceDuration : ℚ
  chunkBuffer : List (List ℚ)
  silenceStartTime : Option ℚ
  isProcessing : Bool
  mode : ListenerMode
  pending : Bool
  chunkCount : ℕ
  hasReceivedAudio : Bool
  deriving DecidableEq, Repr

/-- Observable events of one step of the listener: an invocation of
`whisper.recognizeStream` on the buffered audio, a call of the pending
promise's resolver, or a call of its rejector. -/
inductive Obs where
  | transcribe (bufferedAudio : List (List ℚ))
  | resolve (transcript : List Char)
  | reject (err : List Char)
  deriving DecidableEq, Repr

/-- The transcription collaborator: given the concatenated buffered audio
(kept chunked here, which loses no information since `Buffer.concat` is
injective on the chunk list up to concatenation), it either returns a
transcript or throws. -/
def TranscribeOracle : Type := List (List ℚ) → Except (List Char) (List Char)

/-- The wake phrase checked by `processWakeWord`. -/
def wakePhrase : List Char := "isis".toList

/-- The literal alternate spelling accepted by `processWakeWord`. -/
def wakePhraseAlt : List Char := "ice is".toList

/-- Embedding of `processWakeWord` of `ContinuousListenerService`. -/
def processWakeWord (W : TranscribeOracle) (st : ListenerState) :
    ListenerState × List Obs :=
  if st.isProcessing = true ∨ st.chunkBuffer = [] then (st, [])
  else
    let bufferedAudio := st.chunkBuffer
    let st1 := { st with isProcessing := true,
                         chunkBuffer := ([] : List (List ℚ)),
                         silenceStartTime := none }
    match W bufferedAudio with
    | Except.ok transcription =>
      if transcription ≠ [] ∧ 0 < (jsTrim transcription).length then
        if (jsIncludes (jsTrim (jsToLowerCase transcription)) wakePhrase
            || jsIncludes (jsTrim (jsToLowerCase transcription)) wakePhraseAlt) = true then
          if st1.pending = true then
            ({ st1 with pending := false, isProcessing := false },
             [Obs.transcribe bufferedAudio, Obs.resolve transcription])
          else ({ st1 with isProcessing := false }, [Obs.transcribe bufferedAudio])
        else ({ st1 with isProcessing := false }, [Obs.transcribe bufferedAudio])
      else ({ st1 with isProcessing := false }, [Obs.transcribe bufferedAudio])
    | Except.error _ =>
      ({ st1 with isProcessing := false }, [Obs.transcribe bufferedAudio])

/-- Embedding of `processCommand` of `ContinuousListenerService`.  Note that, unlike
`processWakeWord`, the dispatch path neither resets `silenceStartTime` nor
ever sets `isProcessing` back to `false`. -/
def processCommand (W : TranscribeOracle) (st : ListenerState) :
    ListenerState × List Obs :=
  if st.isProcessing = true ∨ st.chunkBuffer = [] ∨ st.hasReceivedAudio = false then
    if st.hasReceivedAudio = false then
      ({ st with chunkBuffer := ([] : List (List ℚ)), silenceStartTime := none }, [])
    else (st, [])
  else
    let bufferedAudio := st.chunkBuffer
    let st1 := { st with isProcessing := true, chunkBuffer := ([] : List (List ℚ)) }
    match W bufferedAudio with
    | Except.ok transcription =>
      if st1.pending = true then
        ({ st1 with pending := false },
         [Obs.transcribe bufferedAudio, Obs.resolve transcription])
      else (st1, [Obs.transcribe bufferedAudio])
    | Except.error e =>
      if st1.pending = true then
        ({ st1 with pending := false },
         [Obs.transcribe bufferedAudio, Obs.reject e])
      else (st1, [Obs.transcribe bufferedAudio])

/-- Embedding of `handleChunk` of `ContinuousListenerService`: `t` is `Date.now()` at the
chunk's arrival and `data` the chunk's decoded samples. -/
def handleChunk (W : TranscribeOracle) (st : ListenerState) (t : ℚ)
    (data : List ℚ) : ListenerState × List Obs :=
  let st1 := { st with chunkCount := st.chunkCount + 1 }
  if st1.chunkCount = 1 then (st1, [])
  else if st1.mode = ListenerMode.command ∧ st1.chunkCount ≤ 5 then (st1, [])
  else
    let st2 :=
      if st1.mode = ListenerMode.command ∧ st1.volumeThreshold ≤ chunkMaxVolume data
      then { st1 with hasReceivedAudio := true }
      else st1
    let st3 := { st2 with chunkBuffer := st2.chunkBuffer ++ [data] }
    if chunkMaxVolume data < st3.volumeThreshold then
      match st3.silenceStartTime with
      | none => ({ st3 with silenceStartTime := some t }, [])
      | some silenceStart =>
        if st3.silenceDuration * 1000 ≤ t - silenceStart then
          match st3.mode with
          | ListenerMode.wake_word => processWakeWord W st3
          | ListenerMode.command => processCommand W st3
        else (st3, [])
    else ({ st3 with silenceStartTime := none }, [])

/-- The state reset performed by `listenForWakeWord` (the returned promise's
callbacks are installed, making the slot `pending`; `chunkCount` is *not*
touched). -/
def listenForWakeWord (st : ListenerState) : ListenerState :=
  { st with mode := ListenerMode.wake_word,
            chunkBuffer := ([] : List (List ℚ)),
            silenceStartTime := none,
            isProcessing := false,
            hasReceivedAudio := false,
            pending := true }

/-- The state reset performed by `listenForCommand` (additionally resets
`chunkCount` to `0`). -/
def listenForCommand (st : ListenerState) : ListenerState :=
  { st with mode := ListenerMode.command,
            chunkBuffer := ([] : List (List ℚ)),
            silenceStartTime := none,
            isProcessing := false,
            chunkCount := 0,
            hasReceivedAudio := false,
            pending := true }

/-- The `audioStream.on('error', ...)` handler installed by `startListening`. -/
def streamError (st : ListenerState) (e : List Char) : ListenerState × List Obs :=
  if st.pending = true then ({ st with pending := false }, [Obs.reject e])
  else (st, [])

/-- The constructor of `ContinuousListenerService`: empty buffer, no silence
timer, wake-word mode, no pending promise, chunk counter at zero. -/
def initState (volumeThreshold silenceDuration : ℚ) : ListenerState :=
  { volumeThreshold := volumeThreshold,
    silenceDuration := silenceDuration,
    chunkBuffer := [],
    silenceStartTime := none,
    isProcessing := false,
    mode := ListenerMode.wake_word,
    pending := false,
    chunkCount := 0,
    hasReceivedAudio := false }

/-- External events driving the listener: a data chunk from the audio stream
(with its `Date.now()` arrival time), a call of `listenForWakeWord`, a call
of `listenForCommand`, or a stream-level error. -/
inductive Event where
  | chunk (t : ℚ) (data : List ℚ)
  | listenWakeWord
  | listenCommand
  | streamErr (e : List Char)
  deriving DecidableEq, Repr

/-- One event step of the listener. -/
def step (W : TranscribeOracle) (st : ListenerState) : Event → ListenerState × List Obs
  | Event.chunk t data => handleChunk W st t data
  | Event.listenWakeWord => (listenForWakeWord st, [])
  | Event.listenCommand => (listenForCommand st, [])
  | Event.streamErr e => streamError st e

/-- Run the listener over a list of events, collecting all observations. -/
def run (W : TranscribeOracle) (st : ListenerState) : List Event → ListenerState × List Obs
  | [] => (st, [])
  | e :: es =>
    let p := step W st e
    let q := run W p.1 es
    (q.1, p.2 ++ q.2)

/-- Whether an observation is a fulfillment of the pending promise (a call of
its resolver or of its rejector). -/
def isFulfill : Obs → Bool
  | Obs.resolve _ => true
  | Obs.reject _ => true
  | Obs.transcribe _ => false

/-- Whether an observation is an invocation of the transcription collaborator. -/
def isTranscribe : Obs → Bool
  | Obs.transcribe _ => true
  | _ => false

/-- Whether an event is a data chunk. -/
def isChunkEvent : Event → Bool
  | Event.chunk _ _ => true
  | _ => false

/-- Whether an event is one of the two listen-request calls. -/
def isListenEvent : Event → Bool
  | Event.listenWakeWord => true
  | Event.listenCommand => true
  | _ => false

/-- One if the pending-result slot is occupied, else zero. -/
def pendingNat (st : ListenerState) : ℕ := if st.pending = true then 1 else 0

/-- The guard under which `handleChunk` skips the incoming chunk entirely
(`st` is the state *before* the chunk arrives, so the incremented counter is
`st.chunkCount + 1`). -/
def skipsChunk (st : ListenerState) : Bool :=
  decide (st.chunkCount + 1 = 1)
  || (decide (st.mode = ListenerMode.command) && decide (st.chunkCount + 1 ≤ 5))

/-- The condition under which the incoming chunk triggers a boundary (the
silence timer is running and has reached `silenceDuration * 1000` ms). -/
def firesBoundary (st : ListenerState) (t : ℚ) (data : List ℚ) : Bool :=
  !(skipsChunk st)
  && decide (chunkMaxVolume data < st.volumeThreshold)
  && (match st.silenceStartTime with
      | none => false
      | some s => decide (st.silenceDuration * 1000 ≤ t - s))

/-- Characters at or above code point 65 are not whitespace. -/
theorem not_whitespace_of_ge (c : Char) (h : 65 ≤ c.toNat) :
    c.isWhitespace = false := by
  have h1 : c ≠ ' ' := by rintro rfl; exact absurd h (by decide)
  have h2 : c ≠ '\t' := by rintro rfl; exact absurd h (by decide)
  have h3 : c ≠ '\r' := by rintro rfl; exact absurd h (by decide)
  have h4 : c ≠ '\n' := by rintro rfl; exact absurd h (by decide)
  simp [Char.isWhitespace, h1, h2, h3, h4]

/-- Lowercased basic-latin letters are not whitespace. -/
theorem ofNat_add32_not_whitespace :
    ∀ n : ℕ, 65 ≤ n → n ≤ 90 → (Char.ofNat (n + 32)).isWhitespace = false := by
  intro n h1 h2
  interval_cases n <;> decide

/-- Lowercasing a character preserves whitespace-ness. -/
theorem isWhitespace_toLower (c : Char) :
    (Char.toLower c).isWhitespace = c.isWhitespace := by
  simp only [Char.toLower]
  split
  · rename_i h
    rw [ofNat_add32_not_whitespace _ h.1 h.2, not_whitespace_of_ge c h.1]
  · rfl

/-- Trimming commutes with ASCII lowercasing. -/
theorem jsTrim_jsToLowerCase (s : List Char) :
    jsTrim (jsToLowerCase s) = (jsTrim s).map Char.toLower := by
  have hfun : (Char.isWhitespace ∘ Char.toLower) = Char.isWhitespace :=
    funext isWhitespace_toLower
  simp only [jsTrim, jsToLowerCase]
  rw [List.dropWhile_map, hfun, ← List.map_reverse, List.dropWhile_map, hfun,
    ← List.map_reverse]

/-- A string containing a nonempty substring is nonempty. -/
theorem ne_nil_of_jsIncludes {s sub : List Char} (hsub : sub ≠ [])
    (h : jsIncludes s sub = true) : s ≠ [] := by
  cases s with
  | nil => simp [jsIncludes] at h; exact absurd h hsub
  | cons a rest => exact fun hc => by cases hc

/-- If the lower-cased, trimmed transcript contains one of the two wake
phrases, the transcript passes `processWakeWord`'s non-empty guard. -/
theorem gate_of_wake_match (tr : List Char)
    (h : (jsIncludes (jsTrim (jsToLowerCase tr)) wakePhrase
          || jsIncludes (jsTrim (jsToLowerCase tr)) wakePhraseAlt) = true) :
    tr ≠ [] ∧ 0 < (jsTrim tr).length := by
  have hne : jsTrim (jsToLowerCase tr) ≠ [] := by
    rcases (Bool.or_eq_true _ _).mp h with h' | h'
    · exact ne_nil_of_jsIncludes (by decide) h'
    · exact ne_nil_of_jsIncludes (by decide) h'
  have hmap : (jsTrim tr).map Char.toLower ≠ [] := by
    rw [← jsTrim_jsToLowerCase]; exact hne
  have htr : jsTrim tr ≠ [] := by
    intro hh; rw [hh] at hmap; exact hmap rfl
  refine ⟨?_, List.length_pos.mpr htr⟩
  intro hh; rw [hh] at htr; exact htr rfl

/-- File-system and subprocess side effects of `WhisperSTTService.recognizeStream`:
the construction of the `wav.FileWriter` on the temp path (which creates the
temp `.wav` file and writes its header), the `execFileAsync('node',
['./transcribe.js', ...])` subprocess invocation, and `fs.unlinkSync` of the
temp file. -/
inductive WhisperEff where
  | createWavWriter
  | execTranscribe
  | unlink
  deriving DecidableEq, Repr

/-- Total `bytesWritten` accumulated by `recognizeStream`'s data handler: the sum of
`chunk.length` in bytes (each decoded 16-bit sample is two bytes). -/
def bytesWritten (chunks : List (List ℚ)) : ℕ :=
  (chunks.map (fun c => 2 * c.length)).sum

/-- Embedding of `WhisperSTTService.recognizeStream` for a stream that ends without a
stream-level error, having delivered `chunks`.  The `wav.FileWriter` is
constructed on the temp path before any data flows; on `finish`, a zero-byte
stream resolves with `''` immediately, otherwise the `transcribe.js`
subprocess runs (modelled by the `exec` oracle); its trimmed stdout is the
result and the temp file is unlinked (also on the error path, where the file
exists since the writer created it). -/
def recognizeStream (exec : Except (List Char) (List Char))
    (chunks : List (List ℚ)) :
    Except (List Char) (List Char) × List WhisperEff :=
  if bytesWritten chunks = 0 then
    (Except.ok [], [WhisperEff.createWavWriter])
  else
    match exec with
    | Except.ok stdout =>
      (Except.ok (jsTrim stdout),
       [WhisperEff.createWavWriter, WhisperEff.execTranscribe, WhisperEff.unlink])
    | Except.error e =>
      (Except.error e,
       [WhisperEff.createWavWriter, WhisperEff.execTranscribe, WhisperEff.unlink])

/-- Message roles of `ChatGPTService`. -/
inductive Role where
  | system
  | user
  | assistant
  deriving DecidableEq, Repr

/-- A `ChatGPTService` conversation message. -/
structure Message where
  role : Role
  content : String
  deriving DecidableEq, Repr

/-- Embedding of `ChatGPTService.sendMessage`: pushes the user message onto the history,
then calls the chat-completions API (the `api` oracle, returning either the
optional `choices[0]?.message?.content` or a thrown error).  On success the
assistant message (`content || ''`) is appended and returned; on failure the
error propagates and the history keeps the already-pushed user message. -/
def sendMessage (api : List Message → Except String (Option String))
    (conversationHistory : List Message) (userMessage : String) :
    Except String String × List Message :=
  let hist1 := conversationHistory ++ [{ role := Role.user, content := userMessage }]
  match api hist1 with
  | Except.ok content =>
    let assistantMessage := content.getD ""
    (Except.ok assistantMessage,
     hist1 ++ [{ role := Role.assistant, content := assistantMessage }])
  | Except.error e => (Except.error e, hist1)

/-- C9 counterexample: on a stream that ends with zero bytes delivered,
`recognizeStream` resolves with the empty string and skips the subprocess —
but the `wav.FileWriter` on the temp path *is* constructed (so a temp file is
created, and this path never unlinks it), contrary to the claim that no temp
file is created. -/
theorem c9_counterexample :
    recognizeStream (Except.ok "hi".toList) []
      = (Except.ok [], [WhisperEff.createWavWriter])
    ∧ WhisperEff.createWavWriter ∈ (recognizeStream (Except.ok "hi".toList) []).2 := by
  constructor
  · rfl
  · decide

/-- C9 (amended): whenever the audio stream ends having delivered zero bytes,
`recognizeStream` resolves with the empty string and the `transcribe.js`
subprocess is never invoked (and no unlink happens); the temp WAV file writer
is still created on the temp path. -/
theorem c9_zero_bytes_resolves_empty (exec : Except (List Char) (List Char))
    (chunks : List (List ℚ)) (h : bytesWritten chunks = 0) :
    recognizeStream exec chunks = (Except.ok [], [WhisperEff.createWavWriter])
    ∧ WhisperEff.execTranscribe ∉ (recognizeStream exec chunks).2 := by
  have heq : recognizeStream exec chunks = (Except.ok [], [WhisperEff.createWavWriter]) := by
    unfold recognizeStream
    rw [if_pos h]
  refine ⟨heq, ?_⟩
  rw [heq]
  decide

/-- C9 witness: a stream that delivered two empty chunks (zero bytes). -/
theorem c9_zero_bytes_resolves_empty_witness :
    recognizeStream (Except.ok "hi".toList) [[], []]
      = (Except.ok [], [WhisperEff.createWavWriter])
    ∧ WhisperEff.execTranscribe
        ∉ (recognizeStream (Except.ok "hi".toList) [[], []]).2 :=
  c9_zero_bytes_resolves_empty (Except.ok "hi".toList) [[], []] (by decide)

/-- C10: `sendMessage` appends the user message to the history before the API
call; on API failure the promise rejects with that error and the user message
remains in the history (no rollback); on success both the user message and
the assistant message (`content || ''`) are appended. -/
theorem c10_sendMessage_history (api1 api2 : List Message → Except String (Option String))
    (hist1 hist2 : List Message) (u1 u2 : String) (e : String) (c : Option String)
    (hfail : api1 (hist1 ++ [{ role := Role.user, content := u1 }]) = Except.error e)
    (hok : api2 (hist2 ++ [{ role := Role.user, content := u2 }]) = Except.ok c) :
    sendMessage api1 hist1 u1
      = (Except.error e, hist1 ++ [{ role := Role.user, content := u1 }])
    ∧ sendMessage api2 hist2 u2
      = (Except.ok (c.getD ""),
         hist2 ++ [{ role := Role.user, content := u2 },
                   { role := Role.assistant, content := c.getD "" }]) := by
  constructor
  · simp only [sendMessage]
    rw [hfail]
  · simp only [sendMessage]
    rw [hok]
    simp

/-- C10 witness: a failing API call and a succeeding one at concrete inputs. -/
theorem c10_sendMessage_history_witness :
    sendMessage (fun _ => Except.error "quota") [] "hi"
      = (Except.error "quota", [{ role := Role.user, content := "hi" }])
    ∧ sendMessage (fun _ => Except.ok (some "hello")) [] "hi"
      = (Except.ok "hello",
         [{ role := Role.user, content := "hi" },
          { role := Role.assistant, content := "hello" }]) :=
  c10_sendMessage_history (fun _ => Except.error "quota")
    (fun _ => Except.ok (some "hello")) [] [] "hi" "hi" "quota" (some "hello")
    rfl rfl

/-- Path lemma for `handleChunk`: the very first chunk (sox startup artifact) is
ignored entirely — only the counter advances. -/
theorem handleChunk_skip1 (W : TranscribeOracle) (st : ListenerState) (t : ℚ)
    (d : List ℚ) (h : st.chunkCount + 1 = 1) :
    handleChunk W st t d = ({ st with chunkCount := st.chunkCount + 1 }, []) := by
  simp only [handleChunk]
  rw [if_pos h]

/-- Path lemma for `handleChunk`: in command mode chunks 1–5 are ignored entirely. -/
theorem handleChunk_skip5 (W : TranscribeOracle) (st : ListenerState) (t : ℚ)
    (d : List ℚ) (h : st.mode = ListenerMode.command ∧ st.chunkCount + 1 ≤ 5) :
    handleChunk W st t d = ({ st with chunkCount := st.chunkCount + 1 }, []) := by
  simp only [handleChunk]
  by_cases h1 : st.chunkCount + 1 = 1
  · rw [if_pos h1]
  · rw [if_neg h1, if_pos h]

/-- Path lemma for `handleChunk`: a measured chunk at or above the volume threshold
buffers the chunk, clears the silence timer, marks `hasReceivedAudio` in
command mode, and emits nothing. -/
theorem handleChunk_loud (W : TranscribeOracle) (st : ListenerState) (t : ℚ)
    (d : List ℚ)
    (h1 : st.chunkCount + 1 ≠ 1)
    (h5 : ¬(st.mode = ListenerMode.command ∧ st.chunkCount + 1 ≤ 5))
    (hvol : st.volumeThreshold ≤ chunkMaxVolume d) :
    handleChunk W st t d =
      (if st.mode = ListenerMode.command then
        ({ st with chunkCount := st.chunkCount + 1,
                   hasReceivedAudio := true,
                   chunkBuffer := st.chunkBuffer ++ [d],
                   silenceStartTime := none }, [])
      else
        ({ st with chunkCount := st.chunkCount + 1,
                   chunkBuffer := st.chunkBuffer ++ [d],
                   silenceStartTime := none }, [])) := by
  by_cases hm : st.mode = ListenerMode.command
  · rw [if_pos hm]
    simp only [handleChunk]
    rw [if_neg h1, if_neg h5, if_pos (And.intro hm hvol)]
    dsimp only
    rw [if_neg (not_lt.mpr hvol)]
  · rw [if_neg hm]
    simp only [handleChunk]
    rw [if_neg h1, if_neg h5,
      if_neg (fun hc : st.mode = ListenerMode.command ∧
          st.volumeThreshold ≤ chunkMaxVolume d => hm hc.1)]
    dsimp only
    rw [if_neg (not_lt.mpr hvol)]

/-- Path lemma for `handleChunk`: a measured below-threshold chunk with no running
silence timer buffers the chunk and starts the timer at `t`. -/
theorem handleChunk_silence_start (W : TranscribeOracle) (st : ListenerState)
    (t : ℚ) (d : List ℚ)
    (h1 : st.chunkCount + 1 ≠ 1)
    (h5 : ¬(st.mode = ListenerMode.command ∧ st.chunkCount + 1 ≤ 5))
    (hvol : chunkMaxVolume d < st.volumeThreshold)
    (hss : st.silenceStartTime = none) :
    handleChunk W st t d =
      ({ st with chunkCount := st.chunkCount + 1,
                 chunkBuffer := st.chunkBuffer ++ [d],
                 silenceStartTime := some t }, []) := by
  simp only [handleChunk]
  rw [if_neg h1, if_neg h5,
    if_neg (fun hc : st.mode = ListenerMode.command ∧
        st.volumeThreshold ≤ chunkMaxVolume d =>
      absurd hvol (not_lt.mpr hc.2))]
  dsimp only
  rw [if_pos hvol, hss]

/-- Path lemma for `handleChunk`: a measured below-threshold chunk whose elapsed
silence has not yet reached the configured duration only buffers the chunk. -/
theorem handleChunk_silence_wait (W : TranscribeOracle) (st : ListenerState)
    (t : ℚ) (d : List ℚ) (s : ℚ)
    (h1 : st.chunkCount + 1 ≠ 1)
    (h5 : ¬(st.mode = ListenerMode.command ∧ st.chunkCount + 1 ≤ 5))
    (hvol : chunkMaxVolume d < st.volumeThreshold)
    (hss : st.silenceStartTime = some s)
    (hd : ¬(st.silenceDuration * 1000 ≤ t - s)) :
    handleChunk W st t d =
      ({ st with chunkCount := st.chunkCount + 1,
                 chunkBuffer := st.chunkBuffer ++ [d] }, []) := by
  simp only [handleChunk]
  rw [if_neg h1, if_neg h5,
    if_neg (fun hc : st.mode = ListenerMode.command ∧
        st.volumeThreshold ≤ chunkMaxVolume d =>
      absurd hvol (not_lt.mpr hc.2))]
  dsimp only
  rw [if_pos hvol, hss]
  dsimp only
  rw [if_neg hd]

/-- Path lemma for `handleChunk`: a wake-word-mode boundary dispatches the pushed
buffer to `processWakeWord`. -/
theorem handleChunk_boundary_wake (W : TranscribeOracle) (st : ListenerState)
    (t : ℚ) (d : List ℚ) (s : ℚ)
    (hmode : st.mode = ListenerMode.wake_word)
    (h1 : st.chunkCount + 1 ≠ 1)
    (hvol : chunkMaxVolume d < st.volumeThreshold)
    (hss : st.silenceStartTime = some s)
    (hd : st.silenceDuration * 1000 ≤ t - s) :
    handleChunk W st t d =
      processWakeWord W
        { st with chunkCount := st.chunkCount + 1,
                  chunkBuffer := st.chunkBuffer ++ [d] } := by
  simp only [handleChunk]
  rw [if_neg h1,
    if_neg (fun hc : st.mode = ListenerMode.command ∧ st.chunkCount + 1 ≤ 5 => by
      rw [hmode] at hc; exact absurd hc.1 (by decide)),
    if_neg (fun hc : st.mode = ListenerMode.command ∧
        st.volumeThreshold ≤ chunkMaxVolume d => by
      rw [hmode] at hc; exact absurd hc.1 (by decide))]
  dsimp only
  rw [if_pos hvol, hss]
  dsimp only
  rw [if_pos hd, hmode]

/-- Path lemma for `handleChunk`: a command-mode boundary dispatches the pushed buffer
to `processCommand`. -/
theorem handleChunk_boundary_cmd (W : TranscribeOracle) (st : ListenerState)
    (t : ℚ) (d : List ℚ) (s : ℚ)
    (hmode : st.mode = ListenerMode.command)
    (h5 : ¬(st.chunkCount + 1 ≤ 5))
    (hvol : chunkMaxVolume d < st.volumeThreshold)
    (hss : st.silenceStartTime = some s)
    (hd : st.silenceDuration * 1000 ≤ t - s) :
    handleChunk W st t d =
      processCommand W
        { st with chunkCount := st.chunkCount + 1,
                  chunkBuffer := st.chunkBuffer ++ [d] } := by
  simp only [handleChunk]
  rw [if_neg (fun hc : st.chunkCount + 1 = 1 => h5 (by omega)),
    if_neg (fun hc : st.mode = ListenerMode.command ∧ st.chunkCount + 1 ≤ 5 =>
      h5 hc.2),
    if_neg (fun hc : st.mode = ListenerMode.command ∧
        st.volumeThreshold ≤ chunkMaxVolume d =>
      absurd hvol (not_lt.mpr hc.2))]
  dsimp only
  rw [if_pos hvol, hss]
  dsimp only
  rw [if_pos hd, hmode]

/-- Path lemma for `processCommand`: a boundary reached without any above-threshold
chunk since mode entry discards the buffer, resets the silence timer, and
does nothing else. -/
theorem processCommand_noAudio (W : TranscribeOracle) (st : ListenerState)
    (h : st.hasReceivedAudio = false) :
    processCommand W st =
      ({ st with chunkBuffer := ([] : List (List ℚ)), silenceStartTime := none }, []) := by
  simp only [processCommand]
  rw [if_pos (Or.inr (Or.inr h)), if_pos h]

/-- Path lemma for `processCommand`: with a transcription already dispatched
(`isProcessing` latched true) and real audio seen, a boundary is dropped
entirely. -/
theorem processCommand_busy (W : TranscribeOracle) (st : ListenerState)
    (hp : st.isProcessing = true) (ha : st.hasReceivedAudio = true) :
    processCommand W st = (st, []) := by
  simp only [processCommand]
  rw [if_pos (Or.inl hp), if_neg (by rw [ha]; exact (by decide))]

/-- Path lemma for `processCommand`, dispatch with successful transcription: the pending
promise is resolved with the transcript, the slot is cleared, and
`isProcessing` is latched true (never reset by `processCommand`);
`silenceStartTime` is left untouched. -/
theorem processCommand_dispatch_ok (W : TranscribeOracle) (st : ListenerState)
    (tr : List Char)
    (hp : st.isProcessing = false) (hb : st.chunkBuffer ≠ [])
    (ha : st.hasReceivedAudio = true) (hpend : st.pending = true)
    (hW : W st.chunkBuffer = Except.ok tr) :
    processCommand W st =
      ({ st with isProcessing := true, chunkBuffer := ([] : List (List ℚ)),
                 pending := false },
       [Obs.transcribe st.chunkBuffer, Obs.resolve tr]) := by
  simp only [processCommand]
  rw [if_neg (by simp [hp, hb, ha]), hW]
  dsimp only
  rw [if_pos hpend]

/-- Path lemma for `processCommand`, dispatch with failing transcription: the pending
promise is rejected with the thrown error and the slot is cleared. -/
theorem processCommand_dispatch_error (W : TranscribeOracle) (st : ListenerState)
    (e : List Char)
    (hp : st.isProcessing = false) (hb : st.chunkBuffer ≠ [])
    (ha : st.hasReceivedAudio = true) (hpend : st.pending = true)
    (hW : W st.chunkBuffer = Except.error e) :
    processCommand W st =
      ({ st with isProcessing := true, chunkBuffer := ([] : List (List ℚ)),
                 pending := false },
       [Obs.transcribe st.chunkBuffer, Obs.reject e]) := by
  simp only [processCommand]
  rw [if_neg (by simp [hp, hb, ha]), hW]
  dsimp only
  rw [if_pos hpend]

/-- Path lemma for `processWakeWord`: matching transcript — the pending promise is
resolved with the full original transcript and the slot cleared. -/
theorem processWakeWord_match (W : TranscribeOracle) (st : ListenerState)
    (tr : List Char)
    (hp : st.isProcessing = false) (hb : st.chunkBuffer ≠ [])
    (hW : W st.chunkBuffer = Except.ok tr) (hpend : st.pending = true)
    (hm : (jsIncludes (jsTrim (jsToLowerCase tr)) wakePhrase
           || jsIncludes (jsTrim (jsToLowerCase tr)) wakePhraseAlt) = true) :
    processWakeWord W st =
      ({ st with isProcessing := false, chunkBuffer := ([] : List (List ℚ)),
                 silenceStartTime := none, pending := false },
       [Obs.transcribe st.chunkBuffer, Obs.resolve tr]) := by
  simp only [processWakeWord]
  rw [if_neg (by simp [hp, hb]), hW]
  dsimp only
  rw [if_pos (gate_of_wake_match tr hm), if_pos hm, if_pos hpend]

/-- Path lemma for `processWakeWord`: non-matching transcript — nothing is fulfilled,
the buffer is cleared and listening continues. -/
theorem processWakeWord_nomatch (W : TranscribeOracle) (st : ListenerState)
    (tr : List Char)
    (hp : st.isProcessing = false) (hb : st.chunkBuffer ≠ [])
    (hW : W st.chunkBuffer = Except.ok tr)
    (hm : (jsIncludes (jsTrim (jsToLowerCase tr)) wakePhrase
           || jsIncludes (jsTrim (jsToLowerCase tr)) wakePhraseAlt) = false) :
    processWakeWord W st =
      ({ st with isProcessing := false, chunkBuffer := ([] : List (List ℚ)),
                 silenceStartTime := none },
       [Obs.transcribe st.chunkBuffer]) := by
  simp only [processWakeWord]
  rw [if_neg (by simp [hp, hb]), hW]
  dsimp only
  split_ifs with hgate hmatch hpend <;>
    first
    | (rw [hm] at hmatch; cases hmatch)
    | rfl

/-- Path lemma for `processWakeWord`: the transcription collaborator throws — the
error is swallowed (no reject), and listening continues. -/
theorem processWakeWord_error (W : TranscribeOracle) (st : ListenerState)
    (e : List Char)
    (hp : st.isProcessing = false) (hb : st.chunkBuffer ≠ [])
    (hW : W st.chunkBuffer = Except.error e) :
    processWakeWord W st =
      ({ st with isProcessing := false, chunkBuffer := ([] : List (List ℚ)),
                 silenceStartTime := none },
       [Obs.transcribe st.chunkBuffer]) := by
  simp only [processWakeWord]
  rw [if_neg (by simp [hp, hb]), hW]

/-- Path lemma for `processWakeWord`: matching transcript but no pending promise —
the match is dropped without any fulfillment. -/
theorem processWakeWord_match_nopending (W : TranscribeOracle)
    (st : ListenerState) (tr : List Char)
    (hp : st.isProcessing = false) (hb : st.chunkBuffer ≠ [])
    (hW : W st.chunkBuffer = Except.ok tr) (hpend : st.pending = false)
    (hm : (jsIncludes (jsTrim (jsToLowerCase tr)) wakePhrase
           || jsIncludes (jsTrim (jsToLowerCase tr)) wakePhraseAlt) = true) :
    processWakeWord W st =
      ({ st with isProcessing := false, chunkBuffer := ([] : List (List ℚ)),
                 silenceStartTime := none },
       [Obs.transcribe st.chunkBuffer]) := by
  simp only [processWakeWord]
  rw [if_neg (by simp [hp, hb]), hW]
  dsimp only
  rw [if_pos (gate_of_wake_match tr hm), if_pos hm,
    if_neg (by rw [hpend]; exact (by decide))]

/-- Path lemma for `processWakeWord`: an early return when a transcription is already
in flight or the buffer is empty. -/
theorem processWakeWord_early (W : TranscribeOracle) (st : ListenerState)
    (hp : st.isProcessing = true ∨ st.chunkBuffer = []) :
    processWakeWord W st = (st, []) := by
  simp only [processWakeWord]
  rw [if_pos hp]

/-- Path lemma for `processCommand`, dispatch with no pending promise: the transcription
result is dropped. -/
theorem processCommand_dispatch_nopending (W : TranscribeOracle)
    (st : ListenerState)
    (hp : st.isProcessing = false) (hb : st.chunkBuffer ≠ [])
    (ha : st.hasReceivedAudio = true) (hpend : st.pending = false) :
    processCommand W st =
      ({ st with isProcessing := true, chunkBuffer := ([] : List (List ℚ)) },
       [Obs.transcribe st.chunkBuffer]) := by
  simp only [processCommand]
  rw [if_neg (by simp [hp, hb, ha])]
  cases hW : W st.chunkBuffer <;>
    · dsimp only
      rw [if_neg (by rw [hpend]; exact (by decide))]

/-- A `processWakeWord` call fulfills the pending slot at most once, and any
fulfillment clears the slot. -/
theorem processWakeWord_fulfill (W : TranscribeOracle) (st : ListenerState) :
    (processWakeWord W st).2.countP isFulfill
      + pendingNat (processWakeWord W st).1 ≤ pendingNat st := by
  by_cases hp : st.isProcessing = true ∨ st.chunkBuffer = []
  · rw [processWakeWord_early W st hp]
    simp [pendingNat]
  · push_neg at hp
    obtain ⟨hp1, hb⟩ := hp
    have hp1' : st.isProcessing = false := by
      cases h : st.isProcessing
      · rfl
      · exact absurd h hp1
    cases hW : W st.chunkBuffer with
    | error e =>
      rw [processWakeWord_error W st e hp1' hb hW]
      simp [pendingNat, isFulfill]
    | ok tr =>
      by_cases hm : (jsIncludes (jsTrim (jsToLowerCase tr)) wakePhrase
          || jsIncludes (jsTrim (jsToLowerCase tr)) wakePhraseAlt) = true
      · cases hpend : st.pending with
        | true =>
          rw [processWakeWord_match W st tr hp1' hb hW hpend hm]
          simp [pendingNat, isFulfill, hpend, List.countP_cons, List.countP_nil]
        | false =>
          rw [processWakeWord_match_nopending W st tr hp1' hb hW hpend hm]
          simp [pendingNat, isFulfill, List.countP_cons, List.countP_nil]
      · rw [processWakeWord_nomatch W st tr hp1' hb hW
          (Bool.eq_false_iff.mpr hm)]
        simp [pendingNat, isFulfill, List.countP_cons, List.countP_nil]

/-- A `processCommand` call fulfills the pending slot at most once, and any
fulfillment clears the slot. -/
theorem processCommand_fulfill (W : TranscribeOracle) (st : ListenerState) :
    (processCommand W st).2.countP isFulfill
      + pendingNat (processCommand W st).1 ≤ pendingNat st := by
  cases ha : st.hasReceivedAudio with
  | false =>
    rw [processCommand_noAudio W st ha]
    simp [pendingNat]
  | true =>
    by_cases hguard : st.isProcessing = true ∨ st.chunkBuffer = []
    · have : processCommand W st = (st, []) := by
        simp only [processCommand]
        rw [if_pos (by rcases hguard with h | h; exacts [Or.inl h, Or.inr (Or.inl h)]),
          if_neg (by rw [ha]; exact (by decide))]
      rw [this]
      simp [pendingNat]
    · push_neg at hguard
      obtain ⟨hp1, hb⟩ := hguard
      have hp1' : st.isProcessing = false := by
        cases h : st.isProcessing
        · rfl
        · exact absurd h hp1
      cases hpend : st.pending with
      | false =>
        rw [processCommand_dispatch_nopending W st hp1' hb ha hpend]
        simp [pendingNat, isFulfill, List.countP_cons, List.countP_nil]
      | true =>
        cases hW : W st.chunkBuffer with
        | ok tr =>
          rw [processCommand_dispatch_ok W st tr hp1' hb ha hpend hW]
          simp [pendingNat, isFulfill, hpend, List.countP_cons, List.countP_nil]
        | error e =>
          rw [processCommand_dispatch_error W st e hp1' hb ha hpend hW]
          simp [pendingNat, isFulfill, hpend, List.countP_cons, List.countP_nil]

/-- A `handleChunk` call fulfills the pending slot at most once, and any
fulfillment clears the slot. -/
theorem handleChunk_fulfill (W : TranscribeOracle) (st : ListenerState)
    (t : ℚ) (d : List ℚ) :
    (handleChunk W st t d).2.countP isFulfill
      + pendingNat (handleChunk W st t d).1 ≤ pendingNat st := by
  by_cases h1 : st.chunkCount + 1 = 1
  · rw [handleChunk_skip1 W st t d h1]; simp [pendingNat]
  · by_cases h5 : st.mode = ListenerMode.command ∧ st.chunkCount + 1 ≤ 5
    · rw [handleChunk_skip5 W st t d h5]; simp [pendingNat]
    · by_cases hvol : chunkMaxVolume d < st.volumeThreshold
      · cases hss : st.silenceStartTime with
        | none =>
          rw [handleChunk_silence_start W st t d h1 h5 hvol hss]
          simp [pendingNat]
        | some s =>
          by_cases hd : st.silenceDuration * 1000 ≤ t - s
          · cases hmode : st.mode with
            | wake_word =>
              rw [handleChunk_boundary_wake W st t d s hmode h1 hvol hss hd]
              have h := processWakeWord_fulfill W
                { st with chunkCount := st.chunkCount + 1,
                          chunkBuffer := st.chunkBuffer ++ [d] }
              simpa [pendingNat] using h
            | command =>
              have h5' : ¬(st.chunkCount + 1 ≤ 5) := fun hle => h5 ⟨hmode, hle⟩
              rw [handleChunk_boundary_cmd W st t d s hmode h5' hvol hss hd]
              have h := processCommand_fulfill W
                { st with chunkCount := st.chunkCount + 1,
                          chunkBuffer := st.chunkBuffer ++ [d] }
              simpa [pendingNat] using h
          · rw [handleChunk_silence_wait W st t d s h1 h5 hvol hss hd]
            simp [pendingNat]
      · rw [handleChunk_loud W st t d h1 h5 (not_lt.mp hvol)]
        split_ifs <;> simp [pendingNat]

/-- Unfolding of a `false` `skipsChunk` guard. -/
theorem skipsChunk_elim (st : ListenerState) (h : skipsChunk st = false) :
    st.chunkCount + 1 ≠ 1
    ∧ ¬(st.mode = ListenerMode.command ∧ st.chunkCount + 1 ≤ 5) := by
  simp only [skipsChunk, Bool.or_eq_false_iff, Bool.and_eq_false_iff,
    decide_eq_false_iff_not] at h
  refine ⟨h.1, fun hc => ?_⟩
  rcases h.2 with h2 | h2
  · exact h2 hc.1
  · exact h2 hc.2

/-- Unfolding of a `true` `firesBoundary` condition. -/
theorem firesBoundary_elim (st : ListenerState) (t : ℚ) (d : List ℚ)
    (h : firesBoundary st t d = true) :
    (st.chunkCount + 1 ≠ 1
     ∧ ¬(st.mode = ListenerMode.command ∧ st.chunkCount + 1 ≤ 5))
    ∧ chunkMaxVolume d < st.volumeThreshold
    ∧ ∃ s, st.silenceStartTime = some s ∧ st.silenceDuration * 1000 ≤ t - s := by
  cases hss : st.silenceStartTime with
  | none =>
    rw [firesBoundary, hss] at h
    simp at h
  | some s =>
    rw [firesBoundary, hss] at h
    simp only [Bool.and_eq_true, Bool.not_eq_true', decide_eq_true_eq] at h
    exact ⟨skipsChunk_elim st h.1.1, h.1.2, s, rfl, h.2⟩

/-- One non-listen event fulfills the pending slot at most once, and any
fulfillment clears the slot. -/
theorem step_fulfill (W : TranscribeOracle) (st : ListenerState) (e : Event)
    (h : isListenEvent e = false) :
    (step W st e).2.countP isFulfill + pendingNat (step W st e).1
      ≤ pendingNat st := by
  cases e with
  | chunk t d => exact handleChunk_fulfill W st t d
  | listenWakeWord => simp [isListenEvent] at h
  | listenCommand => simp [isListenEvent] at h
  | streamErr err =>
    simp only [step, streamError]
    split_ifs with hp <;>
      simp [pendingNat, isFulfill, hp, List.countP_cons, List.countP_nil]

/-- C5: across any sequence of stream events containing no new listen
request, the number of resolver/rejector calls plus the residual occupancy
of the pending slot never exceeds the slot's initial occupancy: each listen
request is fulfilled at most once, and fulfillment clears the slot
atomically, so no later boundary, transcription error, or stream error can
fulfill the same request a second time. -/
theorem c5_fulfilled_at_most_once (W : TranscribeOracle) (st : ListenerState)
    (events : List Event) (h : ∀ e ∈ events, isListenEvent e = false) :
    (run W st events).2.countP isFulfill + pendingNat (run W st events).1
      ≤ pendingNat st := by
  induction events generalizing st with
  | nil => simp [run, pendingNat]
  | cons e es ih =>
    simp only [run]
    rw [List.countP_append]
    have hstep := step_fulfill W st e (h e (by simp))
    have hrest := ih (step W st e).1 (fun e' he' => h e' (by simp [he']))
    omega

/-- C5 witness: a stream error after a command listen request fulfills the
request exactly once and empties the slot. -/
theorem c5_fulfilled_at_most_once_witness :
    (run (fun _ => Except.ok []) (listenForCommand (initState 900 (3/2)))
        [Event.chunk 100 [0], Event.streamErr "boom".toList]).2.countP isFulfill
      + pendingNat (run (fun _ => Except.ok [])
          (listenForCommand (initState 900 (3/2)))
          [Event.chunk 100 [0], Event.streamErr "boom".toList]).1
      ≤ pendingNat (listenForCommand (initState 900 (3/2))) :=
  c5_fulfilled_at_most_once (fun _ => Except.ok [])
    (listenForCommand (initState 900 (3/2)))
    [Event.chunk 100 [0], Event.streamErr "boom".toList]
    (by decide)

/-- In command mode with `isProcessing` latched, a chunk produces no
observable event and leaves the latch and the mode untouched. -/
theorem handleChunk_cmd_busy (W : TranscribeOracle) (st : ListenerState)
    (t : ℚ) (d : List ℚ)
    (hm : st.mode = ListenerMode.command) (hp : st.isProcessing = true) :
    (handleChunk W st t d).2 = []
    ∧ (handleChunk W st t d).1.isProcessing = true
    ∧ (handleChunk W st t d).1.mode = ListenerMode.command := by
  by_cases h1 : st.chunkCount + 1 = 1
  · rw [handleChunk_skip1 W st t d h1]
    exact ⟨rfl, hp, hm⟩
  · by_cases h5 : st.mode = ListenerMode.command ∧ st.chunkCount + 1 ≤ 5
    · rw [handleChunk_skip5 W st t d h5]
      exact ⟨rfl, hp, hm⟩
    · by_cases hvol : chunkMaxVolume d < st.volumeThreshold
      · cases hss : st.silenceStartTime with
        | none =>
          rw [handleChunk_silence_start W st t d h1 h5 hvol hss]
          exact ⟨rfl, hp, hm⟩
        | some s =>
          by_cases hd : st.silenceDuration * 1000 ≤ t - s
          · have h5' : ¬(st.chunkCount + 1 ≤ 5) := fun hle => h5 ⟨hm, hle⟩
            rw [handleChunk_boundary_cmd W st t d s hm h5' hvol hss hd]
            cases ha : st.hasReceivedAudio with
            | false =>
              rw [processCommand_noAudio W _ rfl]
              exact ⟨rfl, hp, hm⟩
            | true =>
              rw [processCommand_busy W
                { st with chunkCount := st.chunkCount + 1,
                          chunkBuffer := st.chunkBuffer ++ [d],
                          hasReceivedAudio := true } hp rfl]
              exact ⟨rfl, hp, hm⟩
          · rw [handleChunk_silence_wait W st t d s h1 h5 hvol hss hd]
            exact ⟨rfl, hp, hm⟩
      · rw [handleChunk_loud W st t d h1 h5 (not_lt.mp hvol)]
        rw [if_pos hm]
        exact ⟨rfl, hp, hm⟩

/-- In command mode with `isProcessing` latched true, a whole run of chunk
events emits no observation and leaves the latch and the mode in place. -/
theorem run_cmd_busy (W : TranscribeOracle) (events : List Event) :
    ∀ st : ListenerState, st.isProcessing = true →
    st.mode = ListenerMode.command →
    (∀ e ∈ events, isChunkEvent e = true) →
    (run W st events).2 = [] ∧ (run W st events).1.isProcessing = true
      ∧ (run W st events).1.mode = ListenerMode.command := by
  induction events with
  | nil => exact fun st hp hm _ => ⟨rfl, hp, hm⟩
  | cons e es ih =>
    intro st hp hm hall
    cases e with
    | chunk t d =>
      obtain ⟨ho, hip, hmo⟩ := handleChunk_cmd_busy W st t d hm hp
      obtain ⟨ho2, hip2, hmo2⟩ :=
        ih (handleChunk W st t d).1 hip hmo (fun e' he' => hall e' (by simp [he']))
      simp only [run, step]
      exact ⟨by simp [ho, ho2], hip2, hmo2⟩
    | listenWakeWord =>
      exact absurd (hall Event.listenWakeWord (by simp)) (by decide)
    | listenCommand =>
      exact absurd (hall Event.listenCommand (by simp)) (by decide)
    | streamErr err =>
      exact absurd (hall (Event.streamErr err) (by simp)) (by simp [isChunkEvent])

/-- C8: `processCommand`'s dispatch path latches `isProcessing` to `true` and
never resets it (on success or error); consequently, once latched, every
later chunk — in particular every later boundary — in the same command
listen session is dropped without any transcription or fulfillment, until a
`listenForWakeWord`/`listenForCommand` call resets the flag. -/
theorem c8_isProcessing_latch (W : TranscribeOracle)
    (st st2 : ListenerState) (events : List Event)
    (h1 : st.isProcessing = false) (h2 : st.chunkBuffer ≠ [])
    (h3 : st.hasReceivedAudio = true)
    (h4 : st2.isProcessing = true) (h5 : st2.mode = ListenerMode.command)
    (h6 : ∀ e ∈ events, isChunkEvent e = true) :
    (processCommand W st).1.isProcessing = true
    ∧ (run W st2 events).2 = []
    ∧ (run W st2 events).1.isProcessing = true
    ∧ (listenForWakeWord st2).isProcessing = false
    ∧ (listenForCommand st2).isProcessing = false := by
  obtain ⟨ho, hip, _⟩ := run_cmd_busy W events st2 h4 h5 h6
  refine ⟨?_, ho, hip, rfl, rfl⟩
  cases hpend : st.pending with
  | false => rw [processCommand_dispatch_nopending W st h1 h2 h3 hpend]
  | true =>
    cases hW : W st.chunkBuffer with
    | ok tr => rw [processCommand_dispatch_ok W st tr h1 h2 h3 hpend hW]
    | error e => rw [processCommand_dispatch_error W st e h1 h2 h3 hpend hW]

/-- C8 witness: concrete dispatch state and a latched state fed two further
chunks, one of them a would-be boundary. -/
theorem c8_isProcessing_latch_witness :
    (processCommand (fun _ => Except.ok [])
      { initState 900 (3/2) with mode := ListenerMode.command,
                                 chunkBuffer := [[1000]],
                                 hasReceivedAudio := true,
                                 pending := true }).1.isProcessing = true
    ∧ (run (fun _ => Except.ok [])
        { initState 900 (3/2) with mode := ListenerMode.command,
                                   isProcessing := true,
                                   chunkCount := 6,
                                   hasReceivedAudio := true,
                                   silenceStartTime := some 100 }
        [Event.chunk 1600 [0], Event.chunk 1700 [0]]).2 = []
    ∧ (run (fun _ => Except.ok [])
        { initState 900 (3/2) with mode := ListenerMode.command,
                                   isProcessing := true,
                                   chunkCount := 6,
                                   hasReceivedAudio := true,
                                   silenceStartTime := some 100 }
        [Event.chunk 1600 [0], Event.chunk 1700 [0]]).1.isProcessing = true
    ∧ (listenForWakeWord
        { initState 900 (3/2) with mode := ListenerMode.command,
                                   isProcessing := true,
                                   chunkCount := 6,
                                   hasReceivedAudio := true,
                                   silenceStartTime := some 100 }).isProcessing = false
    ∧ (listenForCommand
        { initState 900 (3/2) with mode := ListenerMode.command,
                                   isProcessing := true,
                                   chunkCount := 6,
                                   hasReceivedAudio := true,
                                   silenceStartTime := some 100 }).isProcessing = false :=
  c8_isProcessing_latch (fun _ => Except.ok [])
    { initState 900 (3/2) with mode := ListenerMode.command,
                               chunkBuffer := [[1000]],
                               hasReceivedAudio := true,
                               pending := true }
    { initState 900 (3/2) with mode := ListenerMode.command,
                               isProcessing := true,
                               chunkCount := 6,
                               hasReceivedAudio := true,
                               silenceStartTime := some 100 }
    [Event.chunk 1600 [0], Event.chunk 1700 [0]]
    rfl (by with_unfolding_all decide) rfl rfl rfl (by decide)

/-- C1 counterexample: in wake-word mode the code has no `hasSpeech` guard.
A trace whose every chunk is strictly below the volume threshold (so
`hasSpeech` is false throughout) still has its pure-silence boundary invoke
the transcription collaborator on the buffered silence. -/
theorem c1_counterexample :
    ([Event.listenWakeWord, Event.chunk 0 [0], Event.chunk 100 [0],
      Event.chunk 1600 [0]].all
        (fun e => match e with
          | Event.chunk _ dd => decide (chunkMaxVolume dd < 900)
          | _ => true)) = true
    ∧ (run (fun _ => Except.ok []) (initState 900 (3/2))
        [Event.listenWakeWord, Event.chunk 0 [0], Event.chunk 100 [0],
         Event.chunk 1600 [0]]).2
      = [Obs.transcribe [[0], [0]]] := by
  with_unfolding_all decide

/-- C1 (amended): only in Command mode does a boundary reached with
`hasReceivedAudio` still false (no chunk at or above the threshold since
mode entry) avoid the transcription collaborator: the chunk produces no
observable event at all, and if the boundary condition held, the buffer is
discarded, the silence timer reset, and the pending slot left intact so
listening continues.  (WakeWord mode has no such guard — see the
counterexample.) -/
theorem c1_command_silence_guard (W : TranscribeOracle) (st : ListenerState)
    (t : ℚ) (d : List ℚ)
    (hmode : st.mode = ListenerMode.command)
    (hna : st.hasReceivedAudio = false)
    (hvol : chunkMaxVolume d < st.volumeThreshold) :
    (handleChunk W st t d).2 = []
    ∧ (firesBoundary st t d = true →
        (handleChunk W st t d).1.chunkBuffer = []
        ∧ (handleChunk W st t d).1.silenceStartTime = none
        ∧ (handleChunk W st t d).1.pending = st.pending) := by
  by_cases h1 : st.chunkCount + 1 = 1
  · rw [handleChunk_skip1 W st t d h1]
    refine ⟨rfl, fun hf => absurd hf ?_⟩
    simp [firesBoundary, skipsChunk, h1]
  · by_cases h5 : st.chunkCount + 1 ≤ 5
    · rw [handleChunk_skip5 W st t d ⟨hmode, h5⟩]
      refine ⟨rfl, fun hf => absurd hf ?_⟩
      simp [firesBoundary, skipsChunk, hmode, h5]
    · cases hss : st.silenceStartTime with
      | none =>
        rw [handleChunk_silence_start W st t d h1 (fun hc => h5 hc.2) hvol hss]
        refine ⟨rfl, fun hf => absurd hf ?_⟩
        simp [firesBoundary, hss]
      | some s =>
        by_cases hd : st.silenceDuration * 1000 ≤ t - s
        · rw [handleChunk_boundary_cmd W st t d s hmode h5 hvol hss hd]
          rw [processCommand_noAudio W
            { st with chunkCount := st.chunkCount + 1,
                      chunkBuffer := st.chunkBuffer ++ [d] } hna]
          exact ⟨rfl, fun _ => ⟨rfl, rfl, rfl⟩⟩
        · rw [handleChunk_silence_wait W st t d s h1 (fun hc => h5 hc.2) hvol hss hd]
          refine ⟨rfl, fun hf => absurd hf ?_⟩
          simp [firesBoundary, hss, hd]

/-- C1 witness: a silence-only command-mode boundary at a concrete state. -/
theorem c1_command_silence_guard_witness :
    (handleChunk (fun _ => Except.ok [])
      { initState 900 (3/2) with mode := ListenerMode.command,
                                 chunkCount := 6,
                                 silenceStartTime := some 100,
                                 chunkBuffer := [[0]] } 1600 [0]).2 = []
    ∧ ((handleChunk (fun _ => Except.ok [])
        { initState 900 (3/2) with mode := ListenerMode.command,
                                   chunkCount := 6,
                                   silenceStartTime := some 100,
                                   chunkBuffer := [[0]] } 1600 [0]).1.chunkBuffer = []
      ∧ (handleChunk (fun _ => Except.ok [])
          { initState 900 (3/2) with mode := ListenerMode.command,
                                     chunkCount := 6,
                                     silenceStartTime := some 100,
                                     chunkBuffer := [[0]] } 1600 [0]).1.silenceStartTime = none
      ∧ (handleChunk (fun _ => Except.ok [])
          { initState 900 (3/2) with mode := ListenerMode.command,
                                     chunkCount := 6,
                                     silenceStartTime := some 100,
                                     chunkBuffer := [[0]] } 1600 [0]).1.pending
          = ({ initState 900 (3/2) with mode := ListenerMode.command,
                                        chunkCount := 6,
                                        silenceStartTime := some 100,
                                        chunkBuffer := [[0]] } : ListenerState).pending) :=
  have h := c1_command_silence_guard (fun _ => Except.ok [])
    { initState 900 (3/2) with mode := ListenerMode.command,
                               chunkCount := 6,
                               silenceStartTime := some 100,
                               chunkBuffer := [[0]] } 1600 [0]
    rfl rfl (by with_unfolding_all decide)
  ⟨h.1, h.2 (by with_unfolding_all decide)⟩

/-- C2 counterexample: re-entering wake-word listening does not reset the
chunk counter, so the first chunk after a second `listenForWakeWord` call is
*not* skipped: it is measured (the silence timer starts at its arrival) and
buffered. -/
theorem c2_counterexample :
    (run (fun _ => Except.ok []) (initState 900 (3/2))
      [Event.listenWakeWord, Event.chunk 100 [0], Event.chunk 200 [0],
       Event.listenWakeWord, Event.chunk 300 [0]]).1.chunkBuffer = [[0]]
    ∧ (run (fun _ => Except.ok []) (initState 900 (3/2))
        [Event.listenWakeWord, Event.chunk 100 [0], Event.chunk 200 [0],
         Event.listenWakeWord, Event.chunk 300 [0]]).1.silenceStartTime
      = some 300 := by
  with_unfolding_all decide

/-- C2 (amended): the chunk counter is global, starts at `0`, and is reset
only by `listenForCommand`.  The chunk that brings the counter to `1` is
skipped entirely, and in Command mode every chunk with counter ≤ 5 is
skipped entirely; `listenForWakeWord` leaves the counter unchanged, so a
wake-word re-entry mid-stream skips no chunks on its own. -/
theorem c2_skip_rules (W : TranscribeOracle) (st st2 : ListenerState)
    (t t2 : ℚ) (d d2 : List ℚ)
    (h1 : st.mode = ListenerMode.command) (h2 : st.chunkCount < 5)
    (h3 : st2.chunkCount = 0) :
    handleChunk W st t d = ({ st with chunkCount := st.chunkCount + 1 }, [])
    ∧ handleChunk W st2 t2 d2 = ({ st2 with chunkCount := st2.chunkCount + 1 }, [])
    ∧ (listenForCommand st).chunkCount = 0
    ∧ (listenForWakeWord st).chunkCount = st.chunkCount :=
  ⟨handleChunk_skip5 W st t d ⟨h1, by omega⟩,
   handleChunk_skip1 W st2 t2 d2 (by omega),
   rfl, rfl⟩

/-- C2 witness: command mode at counter 2 and a fresh counter at 0. -/
theorem c2_skip_rules_witness :
    handleChunk (fun _ => Except.ok [])
        { initState 900 (3/2) with mode := ListenerMode.command,
                                   chunkCount := 2 } 100 [1000]
      = ({ { initState 900 (3/2) with mode := ListenerMode.command,
                                      chunkCount := 2 } with chunkCount := 2 + 1 }, [])
    ∧ handleChunk (fun _ => Except.ok []) (initState 900 (3/2)) 100 [1000]
      = ({ initState 900 (3/2) with chunkCount := 0 + 1 }, [])
    ∧ (listenForCommand
        { initState 900 (3/2) with mode := ListenerMode.command,
                                   chunkCount := 2 }).chunkCount = 0
    ∧ (listenForWakeWord
        { initState 900 (3/2) with mode := ListenerMode.command,
                                   chunkCount := 2 }).chunkCount
      = ({ initState 900 (3/2) with mode := ListenerMode.command,
                                    chunkCount := 2 } : ListenerState).chunkCount :=
  c2_skip_rules (fun _ => Except.ok [])
    { initState 900 (3/2) with mode := ListenerMode.command, chunkCount := 2 }
    (initState 900 (3/2)) 100 100 [1000] [1000] rfl (by decide) rfl

/-- Scenario A trace: chunks arrive every 100 ms starting at t = 100 ms;
chunks 1–20 carry a 1000-amplitude sample (above the 900 threshold), chunks
21–36 a 0-amplitude sample. -/
def c3trace : List Event :=
  (List.range 36).map (fun k =>
    Event.chunk ((100 : ℚ) * ((k + 1 : ℕ) : ℚ))
      (if k + 1 ≤ 20 then [1000] else [0]))

/-- The buffer contents dispatched in scenario A: chunks 2–36 (chunk 1 is
skipped). -/
def c3buffer : List (List ℚ) :=
  List.replicate 19 [1000] ++ List.replicate 16 [0]

/-- C3 counterexample: after the first 35 chunks of scenario A no boundary
has fired at all (no observation is emitted), so the boundary is *not* fired
at chunk 35.  The silence timer starts at chunk 21's arrival, so at chunk 35
only 1400 ms — not 1.5 s — of silence have elapsed. -/
theorem c3_counterexample :
    (run (fun _ => Except.ok []) (initState 900 (3/2)) (c3trace.take 35)).2
      = [] := by
  with_unfolding_all decide

/-- C3 (amended): in scenario A (volumeThreshold 900, silenceDuration 1.5 s,
chunks every 100 ms, 20 above-threshold then 16 below-threshold chunks)
exactly one boundary fires, at chunk 36 — the first chunk at which the time
elapsed since the silence timer started (chunk 21's arrival) reaches
1.5 s — and the dispatched buffer holds chunks 2 through 36. -/
theorem c3_boundary_at_chunk36 :
    (run (fun _ => Except.ok []) (initState 900 (3/2)) c3trace).2
      = [Obs.transcribe c3buffer]
    ∧ (run (fun _ => Except.ok []) (initState 900 (3/2)) c3trace).1.chunkBuffer
      = [] := by
  with_unfolding_all decide

/-- Lemma: `processWakeWord` always leaves the silence timer cleared (every
non-early-return branch sets it to `none`). -/
theorem processWakeWord_silence_none (W : TranscribeOracle)
    (st : ListenerState)
    (hp : st.isProcessing = false) (hb : st.chunkBuffer ≠ []) :
    (processWakeWord W st).1.silenceStartTime = none := by
  simp only [processWakeWord]
  rw [if_neg (by simp [hp, hb])]
  cases hW : W st.chunkBuffer with
  | ok tr =>
    dsimp only
    split_ifs <;> rfl
  | error e => rfl

/-- A `processCommand` dispatch leaves the silence timer untouched while
latching `isProcessing`. -/
theorem processCommand_dispatch_keeps_silence (W : TranscribeOracle)
    (st : ListenerState)
    (hp : st.isProcessing = false) (hb : st.chunkBuffer ≠ [])
    (ha : st.hasReceivedAudio = true) :
    (processCommand W st).1.silenceStartTime = st.silenceStartTime
    ∧ (processCommand W st).1.isProcessing = true := by
  cases hpend : st.pending with
  | false =>
    rw [processCommand_dispatch_nopending W st hp hb ha hpend]
    exact ⟨rfl, rfl⟩
  | true =>
    cases hW : W st.chunkBuffer with
    | ok tr =>
      rw [processCommand_dispatch_ok W st tr hp hb ha hpend hW]
      exact ⟨rfl, rfl⟩
    | error e =>
      rw [processCommand_dispatch_error W st e hp hb ha hpend hW]
      exact ⟨rfl, rfl⟩

/-- C4 counterexample: a Command-mode boundary that dispatches transcription
(the pending promise is resolved, witnessing the boundary) does *not* reset
the silence timer — it is still `some 700` afterwards. -/
theorem c4_counterexample :
    (run (fun _ => Except.ok "hello".toList) (initState 900 (3/2))
      [Event.listenCommand, Event.chunk 100 [0], Event.chunk 200 [0],
       Event.chunk 300 [0], Event.chunk 400 [0], Event.chunk 500 [0],
       Event.chunk 600 [1000], Event.chunk 700 [0],
       Event.chunk 2200 [0]]).1.silenceStartTime = some 700
    ∧ Obs.resolve "hello".toList
        ∈ (run (fun _ => Except.ok "hello".toList) (initState 900 (3/2))
            [Event.listenCommand, Event.chunk 100 [0], Event.chunk 200 [0],
             Event.chunk 300 [0], Event.chunk 400 [0], Event.chunk 500 [0],
             Event.chunk 600 [1000], Event.chunk 700 [0],
             Event.chunk 2200 [0]]).2 := by
  with_unfolding_all decide

/-- C4 (amended): the silence timer is `none` after every mode transition
and after every measured chunk at or above the threshold; it is set to the
chunk's arrival time by the first measured below-threshold chunk while
clear; it is reset by every WakeWord boundary and by every Command
pure-silence boundary; but a Command boundary that dispatches transcription
(`hasReceivedAudio` true) leaves the timer unchanged. -/
theorem c4_silence_timer_lifecycle
    (W : TranscribeOracle) (st0 stA stB stC stD stE : ListenerState)
    (tA tB tC tD tE : ℚ) (dA dB dC dD dE : List ℚ)
    (hA1 : skipsChunk stA = false)
    (hA2 : stA.volumeThreshold ≤ chunkMaxVolume dA)
    (hB1 : skipsChunk stB = false)
    (hB2 : chunkMaxVolume dB < stB.volumeThreshold)
    (hB3 : stB.silenceStartTime = none)
    (hC1 : stC.mode = ListenerMode.wake_word) (hC2 : stC.isProcessing = false)
    (hC3 : firesBoundary stC tC dC = true)
    (hD1 : stD.mode = ListenerMode.command) (hD2 : stD.isProcessing = false)
    (hD3 : stD.hasReceivedAudio = true)
    (hD4 : firesBoundary stD tD dD = true)
    (hE1 : stE.mode = ListenerMode.command) (hE2 : stE.hasReceivedAudio = false)
    (hE3 : firesBoundary stE tE dE = true) :
    (listenForWakeWord st0).silenceStartTime = none
    ∧ (listenForCommand st0).silenceStartTime = none
    ∧ (handleChunk W stA tA dA).1.silenceStartTime = none
    ∧ (handleChunk W stB tB dB).1.silenceStartTime = some tB
    ∧ (handleChunk W stC tC dC).1.silenceStartTime = none
    ∧ (handleChunk W stD tD dD).1.silenceStartTime = stD.silenceStartTime
    ∧ (handleChunk W stE tE dE).1.silenceStartTime = none := by
  refine ⟨rfl, rfl, ?_, ?_, ?_, ?_, ?_⟩
  · obtain ⟨h1, h5⟩ := skipsChunk_elim stA hA1
    rw [handleChunk_loud W stA tA dA h1 h5 hA2]
    split_ifs <;> rfl
  · obtain ⟨h1, h5⟩ := skipsChunk_elim stB hB1
    rw [handleChunk_silence_start W stB tB dB h1 h5 hB2 hB3]
  · obtain ⟨⟨h1, _⟩, hvol, s, hss, hd⟩ := firesBoundary_elim stC tC dC hC3
    rw [handleChunk_boundary_wake W stC tC dC s hC1 h1 hvol hss hd]
    exact processWakeWord_silence_none W
      { stC with chunkCount := stC.chunkCount + 1,
                 chunkBuffer := stC.chunkBuffer ++ [dC] } hC2 (by simp)
  · obtain ⟨⟨_, h5⟩, hvol, s, hss, hd⟩ := firesBoundary_elim stD tD dD hD4
    have h5' : ¬(stD.chunkCount + 1 ≤ 5) := fun hle => h5 ⟨hD1, hle⟩
    rw [handleChunk_boundary_cmd W stD tD dD s hD1 h5' hvol hss hd]
    exact (processCommand_dispatch_keeps_silence W
      { stD with chunkCount := stD.chunkCount + 1,
                 chunkBuffer := stD.chunkBuffer ++ [dD] } hD2 (by simp) hD3).1
  · obtain ⟨⟨_, h5⟩, hvol, s, hss, hd⟩ := firesBoundary_elim stE tE dE hE3
    have h5' : ¬(stE.chunkCount + 1 ≤ 5) := fun hle => h5 ⟨hE1, hle⟩
    rw [handleChunk_boundary_cmd W stE tE dE s hE1 h5' hvol hss hd]
    rw [processCommand_noAudio W
      { stE with chunkCount := stE.chunkCount + 1,
                 chunkBuffer := stE.chunkBuffer ++ [dE] } hE2]

/-- C4 witness: concrete instances of the five chunk cases — the command
dispatch boundary keeps its `some 100` timer while the wake-word boundary
and the silence-only command boundary clear theirs. -/
theorem c4_silence_timer_lifecycle_witness :
    (handleChunk (fun _ => Except.ok [])
      { initState 900 (3/2) with chunkCount := 6 } 0 [1000]).1.silenceStartTime
      = none
    ∧ (handleChunk (fun _ => Except.ok [])
        { initState 900 (3/2) with chunkCount := 6 } 50 [0]).1.silenceStartTime
      = some 50
    ∧ (handleChunk (fun _ => Except.ok [])
        { initState 900 (3/2) with chunkCount := 6,
                                   silenceStartTime := some 100,
                                   chunkBuffer := [[0]] } 1600 [0]).1.silenceStartTime
      = none
    ∧ (handleChunk (fun _ => Except.ok [])
        { initState 900 (3/2) with mode := ListenerMode.command,
                                   chunkCount := 6,
                                   silenceStartTime := some 100,
                                   chunkBuffer := [[1000]],
                                   hasReceivedAudio := true,
                                   pending := true } 1600 [0]).1.silenceStartTime
      = some 100
    ∧ (handleChunk (fun _ => Except.ok [])
        { initState 900 (3/2) with mode := ListenerMode.command,
                                   chunkCount := 6,
                                   silenceStartTime := some 100,
                                   chunkBuffer := [[0]] } 1600 [0]).1.silenceStartTime
      = none := by
  have h := c4_silence_timer_lifecycle (fun _ => Except.ok [])
    (initState 900 (3/2))
    { initState 900 (3/2) with chunkCount := 6 }
    { initState 900 (3/2) with chunkCount := 6 }
    { initState 900 (3/2) with chunkCount := 6,
                               silenceStartTime := some 100,
                               chunkBuffer := [[0]] }
    { initState 900 (3/2) with mode := ListenerMode.command,
                               chunkCount := 6,
                               silenceStartTime := some 100,
                               chunkBuffer := [[1000]],
                               hasReceivedAudio := true,
                               pending := true }
    { initState 900 (3/2) with mode := ListenerMode.command,
                               chunkCount := 6,
                               silenceStartTime := some 100,
                               chunkBuffer := [[0]] }
    0 50 1600 1600 1600 [1000] [0] [0] [0] [0]
    (by decide) (by with_unfolding_all decide)
    (by decide) (by with_unfolding_all decide) rfl
    rfl rfl (by with_unfolding_all decide)
    rfl rfl rfl (by with_unfolding_all decide)
    rfl rfl (by with_unfolding_all decide)
  exact ⟨h.2.2.1, h.2.2.2.1, h.2.2.2.2.1, h.2.2.2.2.2.1, h.2.2.2.2.2.2⟩

/-- C6: in WakeWord mode, a transcript whose lower-cased, trimmed form
contains the wake phrase `"isis"` or the literal alternate `"ice is"`
fulfills the pending result with the full original transcript and clears the
slot; a transcript containing neither fulfills nothing — the pending slot,
the mode, and the `isProcessing` flag are left ready and listening
continues. -/
theorem c6_wake_phrase_match (W : TranscribeOracle)
    (st1 st2 : ListenerState) (tr1 tr2 : List Char)
    (a1 : st1.isProcessing = false) (a2 : st1.chunkBuffer ≠ [])
    (a3 : W st1.chunkBuffer = Except.ok tr1) (a4 : st1.pending = true)
    (a5 : (jsIncludes (jsTrim (jsToLowerCase tr1)) wakePhrase
           || jsIncludes (jsTrim (jsToLowerCase tr1)) wakePhraseAlt) = true)
    (b1 : st2.isProcessing = false) (b2 : st2.chunkBuffer ≠ [])
    (b3 : W st2.chunkBuffer = Except.ok tr2)
    (b5 : (jsIncludes (jsTrim (jsToLowerCase tr2)) wakePhrase
           || jsIncludes (jsTrim (jsToLowerCase tr2)) wakePhraseAlt) = false) :
    (processWakeWord W st1).2
      = [Obs.transcribe st1.chunkBuffer, Obs.resolve tr1]
    ∧ (processWakeWord W st1).1.pending = false
    ∧ (processWakeWord W st2).2 = [Obs.transcribe st2.chunkBuffer]
    ∧ (processWakeWord W st2).1.pending = st2.pending
    ∧ (processWakeWord W st2).1.mode = st2.mode
    ∧ (processWakeWord W st2).1.isProcessing = false := by
  have hm1 := processWakeWord_match W st1 tr1 a1 a2 a3 a4 a5
  have hm2 := processWakeWord_nomatch W st2 tr2 b1 b2 b3 b5
  rw [hm1, hm2]
  exact ⟨rfl, rfl, rfl, rfl, rfl, rfl⟩

/-- C6 witness: scenario C's transcript "hey there isis can you help"
matches; "hello there" does not. -/
theorem c6_wake_phrase_match_witness :
    (processWakeWord
        (fun b => if b = [[0]] then Except.ok "hey there isis can you help".toList
                  else Except.ok "hello there".toList)
        { initState 900 (3/2) with chunkBuffer := [[0]], pending := true }).2
      = [Obs.transcribe [[0]],
         Obs.resolve "hey there isis can you help".toList]
    ∧ (processWakeWord
        (fun b => if b = [[0]] then Except.ok "hey there isis can you help".toList
                  else Except.ok "hello there".toList)
        { initState 900 (3/2) with chunkBuffer := [[0]], pending := true }).1.pending
      = false
    ∧ (processWakeWord
        (fun b => if b = [[0]] then Except.ok "hey there isis can you help".toList
                  else Except.ok "hello there".toList)
        { initState 900 (3/2) with chunkBuffer := [[1]], pending := true }).2
      = [Obs.transcribe [[1]]]
    ∧ (processWakeWord
        (fun b => if b = [[0]] then Except.ok "hey there isis can you help".toList
                  else Except.ok "hello there".toList)
        { initState 900 (3/2) with chunkBuffer := [[1]], pending := true }).1.pending
      = ({ initState 900 (3/2) with chunkBuffer := [[1]],
                                    pending := true } : ListenerState).pending
    ∧ (processWakeWord
        (fun b => if b = [[0]] then Except.ok "hey there isis can you help".toList
                  else Except.ok "hello there".toList)
        { initState 900 (3/2) with chunkBuffer := [[1]], pending := true }).1.mode
      = ({ initState 900 (3/2) with chunkBuffer := [[1]],
                                    pending := true } : ListenerState).mode
    ∧ (processWakeWord
        (fun b => if b = [[0]] then Except.ok "hey there isis can you help".toList
                  else Except.ok "hello there".toList)
        { initState 900 (3/2) with chunkBuffer := [[1]],
                                   pending := true }).1.isProcessing
      = false :=
  c6_wake_phrase_match
    (fun b => if b = [[0]] then Except.ok "hey there isis can you help".toList
              else Except.ok "hello there".toList)
    { initState 900 (3/2) with chunkBuffer := [[0]], pending := true }
    { initState 900 (3/2) with chunkBuffer := [[1]], pending := true }
    "hey there isis can you help".toList "hello there".toList
    rfl (by with_unfolding_all decide) (by with_unfolding_all decide) rfl
    (by decide)
    rfl (by with_unfolding_all decide) (by with_unfolding_all decide)
    (by decide)

/-- C7: when the transcription collaborator throws during a boundary
dispatch, WakeWord mode swallows the error — only the transcription
invocation is observable, nothing is rejected, the pending slot survives and
`isProcessing` is reset so listening continues — while Command mode rejects
the pending result with that error and clears the slot. -/
theorem c7_transcription_error (W : TranscribeOracle)
    (stW stC : ListenerState) (e1 e2 : List Char)
    (w1 : stW.isProcessing = false) (w2 : stW.chunkBuffer ≠ [])
    (w3 : W stW.chunkBuffer = Except.error e1)
    (c1 : stC.isProcessing = false) (c2 : stC.chunkBuffer ≠ [])
    (c3 : stC.hasReceivedAudio = true) (c4 : stC.pending = true)
    (c5 : W stC.chunkBuffer = Except.error e2) :
    (processWakeWord W stW).2 = [Obs.transcribe stW.chunkBuffer]
    ∧ (processWakeWord W stW).1.pending = stW.pending
    ∧ (processWakeWord W stW).1.isProcessing = false
    ∧ (processCommand W stC).2
        = [Obs.transcribe stC.chunkBuffer, Obs.reject e2]
    ∧ (processCommand W stC).1.pending = false := by
  have h1 := processWakeWord_error W stW e1 w1 w2 w3
  have h2 := processCommand_dispatch_error W stC e2 c1 c2 c3 c4 c5
  rw [h1, h2]
  exact ⟨rfl, rfl, rfl, rfl, rfl⟩

/-- C7 witness: a throwing collaborator under both modes at concrete
states. -/
theorem c7_transcription_error_witness :
    (processWakeWord
        (fun b => if b = [[0]] then Except.error "bad1".toList
                  else Except.error "bad2".toList)
        { initState 900 (3/2) with chunkBuffer := [[0]], pending := true }).2
      = [Obs.transcribe [[0]]]
    ∧ (processWakeWord
        (fun b => if b = [[0]] then Except.error "bad1".toList
                  else Except.error "bad2".toList)
        { initState 900 (3/2) with chunkBuffer := [[0]], pending := true }).1.pending
      = ({ initState 900 (3/2) with chunkBuffer := [[0]],
                                    pending := true } : ListenerState).pending
    ∧ (processWakeWord
        (fun b => if b = [[0]] then Except.error "bad1".toList
                  else Except.error "bad2".toList)
        { initState 900 (3/2) with chunkBuffer := [[0]],
                                   pending := true }).1.isProcessing = false
    ∧ (processCommand
        (fun b => if b = [[0]] then Except.error "bad1".toList
                  else Except.error "bad2".toList)
        { initState 900 (3/2) with mode := ListenerMode.command,
                                   chunkBuffer := [[1]],
                                   hasReceivedAudio := true,
                                   pending := true }).2
      = [Obs.transcribe [[1]], Obs.reject "bad2".toList]
    ∧ (processCommand
        (fun b => if b = [[0]] then Except.error "bad1".toList
                  else Except.error "bad2".toList)
        { initState 900 (3/2) with mode := ListenerMode.command,
                                   chunkBuffer := [[1]],
                                   hasReceivedAudio := true,
                                   pending := true }).1.pending = false :=
  c7_transcription_error
    (fun b => if b = [[0]] then Except.error "bad1".toList
              else Except.error "bad2".toList)
    { initState 900 (3/2) with chunkBuffer := [[0]], pending := true }
    { initState 900 (3/2) with mode := ListenerMode.command,
                               chunkBuffer := [[1]],
                               hasReceivedAudio := true,
                               pending := true }
    "bad1".toList "bad2".toList
    rfl (by with_unfolding_all decide) (by with_unfolding_all decide)
    rfl (by with_unfolding_all decide) rfl rfl
    (by with_unfolding_all decide)
